import Mathlib

/-!
Verification of the session lifecycle controller in
`session_rpcserver.go` (package `terminal`).

The Go code is shallowly embedded: each RPC handler becomes a pure Lean
function from an environment (the outcomes of the store / tunnel /
baking collaborators) and the current time to a list of observable
effects plus an optional error, mirroring the Go control flow
line by line.  Machine integers are modelled as `Nat`/`Int` with
explicit wrap-around where Go converts between `uint64` and `int64`.
-/

namespace LitSessions

/-- States of a session, as in the `session` package: the constants
`StateCreated`, `StateInUse`, `StateRevoked`, `StateExpired` are
distinct values of an integer-backed enum, so we keep the underlying
`Nat` to be able to speak about values outside the known set. -/
def StateCreated : Nat := 0

/-- The `session.StateInUse` constant. -/
def StateInUse : Nat := 1

/-- The `session.StateRevoked` constant. -/
def StateRevoked : Nat := 2

/-- The `session.StateExpired` constant. -/
def StateExpired : Nat := 3

/-- Session types: `session.TypeMacaroonReadonly` (integer-backed enum,
kept as `Nat` so unknown values are representable). -/
def TypeMacaroonReadonly : Nat := 0

/-- The `session.TypeMacaroonAdmin` constant. -/
def TypeMacaroonAdmin : Nat := 1

/-- The `session.TypeMacaroonCustom` constant. -/
def TypeMacaroonCustom : Nat := 2

/-- The `session.TypeUIPassword` constant. -/
def TypeUIPassword : Nat := 3

/-- Wire enum `litrpc.SessionType_TYPE_MACAROON_READONLY`. -/
def TYPE_MACAROON_READONLY : Nat := 0

/-- Wire enum `litrpc.SessionType_TYPE_MACAROON_ADMIN`. -/
def TYPE_MACAROON_ADMIN : Nat := 1

/-- Wire enum `litrpc.SessionType_TYPE_MACAROON_CUSTOM`. -/
def TYPE_MACAROON_CUSTOM : Nat := 2

/-- Wire enum `litrpc.SessionType_TYPE_UI_PASSWORD`. -/
def TYPE_UI_PASSWORD : Nat := 3

/-- A session record (`session.Session`), with the fields the
controller reads.  Times are Unix instants as integers; Go's
`time.Time.Before`/`After` are the strict orders `<`/`>` on instants.
Keys are abstracted to numeric identifiers. -/
structure Session where
  label : String
  type : Nat
  state : Nat
  expiry : Int
  serverAddr : String
  devServer : Bool
  localPubKey : Nat
  macaroonRootKey : Nat
  deriving Repr, DecidableEq

/-- Observable calls the controller makes into its collaborators
(store, tunnel server, macaroon baker) plus watcher spawning. -/
inductive Effect where
  | storeSession (key : Nat)
  | storeRevoke (key : Nat)
  | bake (rootKey : Nat) (readOnly : Bool)
  | tunnelStart (key : Nat)
  | tunnelStop (key : Nat)
  | spawnWatcher (key : Nat)
  deriving Repr, DecidableEq

/-- Behaviour of the external collaborators during one call: each field
gives the outcome the collaborator would return if invoked.  `none`
means success for the store operations; `Except` carries the error or
the produced value for the others. -/
structure Env where
  basicAuth : String
  storeErr : Option String
  revokeErr : Option String
  bakeResult : Except String String
  startErr : Option String
  stopErr : Option String
  newSessionErr : Option String
  genKey : Nat
  genRootKey : Nat
  parseResult : Except String Nat
  deriving Repr

/-- Result of a handler: the collaborator calls made, in order, and the
error returned to the RPC caller (`none` = success). -/
structure Outcome where
  effects : List Effect
  error : Option String
  deriving Repr, DecidableEq

/-- The `HeaderMacaroon` constant used when wrapping a baked macaroon
into a header value. -/
def HeaderMacaroon : String := "Macaroon"

/-- Result of the credential-construction `switch sess.Type` inside
`resumeSession`: either an auth payload, a silent skip (the Go code
logs and returns `nil`), or nothing here — the bake step is recorded
as an effect by the caller. -/
inductive AuthResult where
  | payload (data : String)
  | skip
  deriving Repr, DecidableEq

/-- The `switch sess.Type` credential construction in `resumeSession`:
`TypeUIPassword` yields a basic-auth header; the two macaroon types
invoke the baker and on bake failure the Go code logs and returns
`nil` (a skip); the `default` branch also logs and returns `nil`. -/
def buildAuthData (env : Env) (sess : Session) : AuthResult :=
  if sess.type = TypeUIPassword then
    .payload ("Authorization: Basic " ++ env.basicAuth)
  else if sess.type = TypeMacaroonAdmin ∨ sess.type = TypeMacaroonReadonly then
    match env.bakeResult with
    | .error _ => .skip
    | .ok mac => .payload (HeaderMacaroon ++ ": " ++ mac)
  else
    .skip

/-- Whether the credential `switch` performs a bake call (the two
macaroon branches call `s.superMacBaker` before inspecting its
result). -/
def bakeEffects (sess : Session) : List Effect :=
  if sess.type = TypeMacaroonAdmin ∨ sess.type = TypeMacaroonReadonly then
    [Effect.bake sess.macaroonRootKey (sess.type == TypeMacaroonReadonly)]
  else
    []

/-- The `resumeSession` method: skip non-{Created,InUse} states;
revoke sessions whose expiry is strictly before now (`Expiry.Before
(time.Now())`), surfacing only a store failure; otherwise build the
credential (skipping silently on bake failure or unknown type), start
the tunnel session (propagating a start error), and on success spawn
the watcher goroutine. -/
def resumeSession (env : Env) (now : Int) (sess : Session) : Outcome :=
  if sess.state ≠ StateInUse ∧ sess.state ≠ StateCreated then
    { effects := [], error := none }
  else if sess.expiry < now then
    match env.revokeErr with
    | some e =>
        { effects := [Effect.storeRevoke sess.localPubKey],
          error := some ("error revoking session: " ++ e) }
    | none =>
        { effects := [Effect.storeRevoke sess.localPubKey], error := none }
  else
    match buildAuthData env sess with
    | .skip => { effects := bakeEffects sess, error := none }
    | .payload _ =>
        match env.startErr with
        | some e =>
            { effects := bakeEffects sess ++ [Effect.tunnelStart sess.localPubKey],
              error := some e }
        | none =>
            { effects := bakeEffects sess ++
                [Effect.tunnelStart sess.localPubKey,
                 Effect.spawnWatcher sess.localPubKey],
              error := none }

/-- The three things a spawned watcher goroutine `select`s on:
the controller quit signal, the session-closed notification from the
tunnel server, and the expiry timer. -/
inductive WatcherTrigger where
  | quit
  | closed
  | timerFired
  deriving Repr, DecidableEq

/-- Body of the watcher goroutine spawned by `resumeSession`, as a
function of whichever trigger wins the `select`.  The quit and closed
branches are empty; the timer branch calls `StopSession` and then
`RevokeSession`, inspecting — but only logging — each error, so the
collaborator outcomes in `env` influence neither the calls made nor an
error result (the goroutine has none). -/
def watcherRun (env : Env) (trigger : WatcherTrigger) (key : Nat) : Outcome :=
  match trigger with
  | .quit => { effects := [], error := none }
  | .closed => { effects := [], error := none }
  | .timerFired =>
      let _stopRes := env.stopErr
      let _revokeRes := env.revokeErr
      { effects := [Effect.tunnelStop key, Effect.storeRevoke key], error := none }

/-- Controller state relevant to `stop`: whether the shared `quit`
channel has been closed and whether the `sync.Once` has fired. -/
structure CtrlState where
  quitClosed : Bool
  onceDone : Bool
  deriving Repr, DecidableEq

/-- Observable steps of a `stop` invocation: closing the quit channel
and waiting on the watcher wait-group. -/
inductive StopEffect where
  | closeQuit
  | waitWatchers
  deriving Repr, DecidableEq

/-- Closing a Go channel panics when the channel is already closed;
the panic is modelled as an `Except.error`. -/
def closeChan (alreadyClosed : Bool) : Except String Unit :=
  if alreadyClosed then .error "close of closed channel" else .ok ()

/-- The `stop` method: `s.stopOnce.Do(func() { close(s.quit); s.wg.Wait() })`.
The body runs only if the once-guard has not fired yet. -/
def ctrlStop (st : CtrlState) : Except String (CtrlState × List StopEffect) :=
  if st.onceDone then .ok (st, [])
  else
    match closeChan st.quitClosed with
    | .error e => .error e
    | .ok _ =>
        .ok ({ quitClosed := true, onceDone := true },
             [StopEffect.closeQuit, StopEffect.waitWatchers])

/-- Iterating `ctrlStop` `n` times from a state, accumulating the
observable effects, and propagating a panic if one occurs. -/
def ctrlStopN : Nat → CtrlState → Except String (CtrlState × List StopEffect)
  | 0, st => .ok (st, [])
  | n + 1, st =>
      match ctrlStop st with
      | .error e => .error e
      | .ok (st1, es) =>
          match ctrlStopN n st1 with
          | .error e => .error e
          | .ok (st2, es1) => .ok (st2, es ++ es1)

/-- A freshly constructed controller: quit channel open, once-guard
not fired. -/
def initCtrl : CtrlState := { quitClosed := false, onceDone := false }

/-- The `marshalRPCType` switch from session types to wire enum values;
the default branch fails with an unknown-value error. -/
def marshalRPCType (typ : Nat) : Except String Nat :=
  if typ = TypeMacaroonReadonly then .ok TYPE_MACAROON_READONLY
  else if typ = TypeMacaroonAdmin then .ok TYPE_MACAROON_ADMIN
  else if typ = TypeMacaroonCustom then .ok TYPE_MACAROON_CUSTOM
  else if typ = TypeUIPassword then .ok TYPE_UI_PASSWORD
  else .error ("unknown type <" ++ toString typ ++ ">")

/-- The `unmarshalRPCType` switch from wire enum values to session
types; the default branch fails with an unknown-value error. -/
def unmarshalRPCType (typ : Nat) : Except String Nat :=
  if typ = TYPE_MACAROON_READONLY then .ok TypeMacaroonReadonly
  else if typ = TYPE_MACAROON_ADMIN then .ok TypeMacaroonAdmin
  else if typ = TYPE_MACAROON_CUSTOM then .ok TypeMacaroonCustom
  else if typ = TYPE_UI_PASSWORD then .ok TypeUIPassword
  else .error ("unknown type <" ++ toString typ ++ ">")

/-- Go's conversion `int64(u)` of a `uint64` value `u`: values at or
above `2^63` wrap around to negative numbers. -/
def int64OfUint64 (u : Nat) : Int :=
  if u < 2 ^ 63 then (u : Int) else (u : Int) - 2 ^ 64

/-- The wire request of `AddSession` (`litrpc.AddSessionRequest`),
with the fields the handler reads; `expiryTimestampSeconds` is a
`uint64`, kept as a `Nat` below `2^64`. -/
structure AddSessionRequest where
  label : String
  sessionType : Nat
  expiryTimestampSeconds : Nat
  mailboxServerAddr : String
  devServer : Bool
  deriving Repr, DecidableEq

/-- Modelled from the spec: `session.NewSession` (the session factory,
which lives outside this file's source) constructs a fresh record in
state Created with the given fields, generating the pairing secret and
local key internally; it can fail.  The generated identifiers and the
failure outcome are supplied by the environment. -/
def NewSession (env : Env) (label : String) (typ : Nat) (expiry : Int)
    (serverAddr : String) (devServer : Bool) : Except String Session :=
  match env.newSessionErr with
  | some e => .error e
  | none =>
      .ok { label := label, type := typ, state := StateCreated, expiry := expiry,
            serverAddr := serverAddr, devServer := devServer,
            localPubKey := env.genKey, macaroonRootKey := env.genRootKey }

/-- The `AddSession` handler: convert the unsigned expiry seconds via
`int64`, reject if `time.Now().After(expiry)`, unmarshal and gate the
session type, construct the session, persist it, then resume it.  The
final response marshalling is omitted: it makes no collaborator call
and cannot alter the effects already performed. -/
def addSession (env : Env) (now : Int) (req : AddSessionRequest) : Outcome :=
  let expiry := int64OfUint64 req.expiryTimestampSeconds
  if expiry < now then
    { effects := [], error := some "expiry must be in the future" }
  else
    match unmarshalRPCType req.sessionType with
    | .error e => { effects := [], error := some e }
    | .ok typ =>
        if typ ≠ TypeUIPassword ∧ typ ≠ TypeMacaroonAdmin ∧
            typ ≠ TypeMacaroonReadonly then
          { effects := [],
            error := some ("invalid session type, only UI password, admin " ++
              "and readonly macaroon types supported in LiT") }
        else
          match NewSession env req.label typ expiry req.mailboxServerAddr
              req.devServer with
          | .error e =>
              { effects := [], error := some ("error creating new session: " ++ e) }
          | .ok sess =>
              match env.storeErr with
              | some e =>
                  { effects := [Effect.storeSession sess.localPubKey],
                    error := some ("error storing session: " ++ e) }
              | none =>
                  let r := resumeSession env now sess
                  { effects := Effect.storeSession sess.localPubKey :: r.effects,
                    error := r.error.map (fun e => "error starting session: " ++ e) }

/-- The `RevokeSession` handler: parse the public key, revoke in the
store (returning the error if that fails, before any stop attempt),
then call `StopSession`, whose error is only logged. -/
def revokeSessionHandler (env : Env) : Outcome :=
  match env.parseResult with
  | .error e =>
      { effects := [], error := some ("error parsing public key: " ++ e) }
  | .ok pubKey =>
      match env.revokeErr with
      | some e =>
          { effects := [Effect.storeRevoke pubKey],
            error := some ("error revoking session: " ++ e) }
      | none =>
          let _stopRes := env.stopErr
          { effects := [Effect.storeRevoke pubKey, Effect.tunnelStop pubKey],
            error := none }

/-- An environment in which every collaborator call succeeds. -/
def envOK : Env :=
  { basicAuth := "dXNlcjpwYXNz", storeErr := none, revokeErr := none,
    bakeResult := .ok "abcdef0123", startErr := none, stopErr := none,
    newSessionErr := none, genKey := 7, genRootKey := 11,
    parseResult := .ok 7 }

/-- An environment whose baking collaborator fails. -/
def envBakeFail : Env := { envOK with bakeResult := .error "bake failed" }

/-- An environment whose tunnel stop call fails. -/
def envStopFail : Env := { envOK with stopErr := some "already stopped" }

/-- A Created UIPassword session whose expiry is the instant 100. -/
def sessAtBoundary : Session :=
  { label := "s", type := TypeUIPassword, state := StateCreated, expiry := 100,
    serverAddr := "mbx", devServer := false, localPubKey := 7, macaroonRootKey := 11 }

/-- A stored MacaroonCustom session in state Created with expiry 200. -/
def sessCustom : Session := { sessAtBoundary with type := TypeMacaroonCustom, expiry := 200 }

/-- A revoked session with a future expiry. -/
def sessRevoked : Session := { sessAtBoundary with state := StateRevoked, expiry := 500 }

/-- A MacaroonAdmin session in state Created with expiry 300. -/
def sessAdmin : Session := { sessAtBoundary with type := TypeMacaroonAdmin, expiry := 300 }

/-- An AddSession request asking for expiry at instant 100. -/
def reqAtNow : AddSessionRequest :=
  { label := "s", sessionType := TYPE_UI_PASSWORD, expiryTimestampSeconds := 100,
    mailboxServerAddr := "mbx", devServer := false }

/-- An AddSession request asking for expiry at instant 50. -/
def reqPast : AddSessionRequest := { reqAtNow with expiryTimestampSeconds := 50 }

/-- An AddSession request whose unsigned expiry seconds are `2^63`. -/
def reqHuge : AddSessionRequest := { reqAtNow with expiryTimestampSeconds := 2 ^ 63 }

/-- C1 counterexample: a Created session whose expiry equals the
current instant is not "not after" handled as the claim states —
`Expiry.Before(time.Now())` is strict, so at equality the code starts
the tunnel and spawns a watcher instead of revoking the session. -/
theorem resumeSession_boundary_counterexample :
    sessAtBoundary.state = StateCreated ∧
    ¬ (100 : Int) < sessAtBoundary.expiry ∧
    (resumeSession envOK 100 sessAtBoundary).effects
      = [Effect.tunnelStart 7, Effect.spawnWatcher 7] ∧
    Effect.storeRevoke 7 ∉ (resumeSession envOK 100 sessAtBoundary).effects := by
  refine ⟨rfl, by decide, rfl, by decide⟩

/-- C1 (amended): for every session in state Created or InUse whose
expiry is strictly before the current time, resumeSession performs
exactly the store revoke, spawns no watcher, makes no tunnel start
call, and surfaces an error exactly when the store revoke fails. -/
theorem resumeSession_expired_revokes (env : Env) (now : Int) (sess : Session)
    (hstate : sess.state = StateCreated ∨ sess.state = StateInUse)
    (hexp : sess.expiry < now) :
    (resumeSession env now sess).effects = [Effect.storeRevoke sess.localPubKey] ∧
    (resumeSession env now sess).error
      = env.revokeErr.map (fun e => "error revoking session: " ++ e) ∧
    (∀ k, Effect.tunnelStart k ∉ (resumeSession env now sess).effects) ∧
    (∀ k, Effect.spawnWatcher k ∉ (resumeSession env now sess).effects) := by
  have h1 : ¬(sess.state ≠ StateInUse ∧ sess.state ≠ StateCreated) := by
    rcases hstate with h | h <;> simp [h]
  unfold resumeSession
  rw [if_neg h1, if_pos hexp]
  cases h : env.revokeErr <;> simp [h]

/-- C1 witness: a Created session with expiry 100 evaluated at time
200 is revoked in the store. -/
theorem resumeSession_expired_revokes_witness :
    (sessAtBoundary.state = StateCreated ∨ sessAtBoundary.state = StateInUse) ∧
    sessAtBoundary.expiry < 200 ∧
    (resumeSession envOK 200 sessAtBoundary).effects
      = [Effect.storeRevoke sessAtBoundary.localPubKey] :=
  ⟨Or.inl rfl, by decide,
   (resumeSession_expired_revokes envOK 200 sessAtBoundary (Or.inl rfl) (by decide)).1⟩

/-- C2: for every session whose state is neither Created nor InUse,
resumeSession is a no-op that returns no error: no store write, no
watcher, no tunnel start. -/
theorem resumeSession_terminal_noop (env : Env) (now : Int) (sess : Session)
    (h1 : sess.state ≠ StateCreated) (h2 : sess.state ≠ StateInUse) :
    resumeSession env now sess = { effects := [], error := none } := by
  unfold resumeSession
  rw [if_pos ⟨h2, h1⟩]

/-- C2 witness: a Revoked session with a future expiry is skipped with
no effect and no error. -/
theorem resumeSession_terminal_noop_witness :
    sessRevoked.state ≠ StateCreated ∧ sessRevoked.state ≠ StateInUse ∧
    resumeSession envOK 100 sessRevoked = { effects := [], error := none } :=
  ⟨by decide, by decide, resumeSession_terminal_noop envOK 100 sessRevoked (by decide) (by decide)⟩

/-- C3: for every spawned watcher, whichever single trigger wins the
select determines the whole run: the timer trigger stops the tunnel
session and then revokes it in the store with no error ever
propagated (also when the collaborators in `env` fail), and the quit
and closed triggers exit with no effect at all. -/
theorem watcherRun_triggers (env : Env) (key : Nat) :
    (∀ trigger, (watcherRun env trigger key).error = none) ∧
    (watcherRun env WatcherTrigger.timerFired key).effects
      = [Effect.tunnelStop key, Effect.storeRevoke key] ∧
    (watcherRun env WatcherTrigger.quit key).effects = [] ∧
    (watcherRun env WatcherTrigger.closed key).effects = [] := by
  refine ⟨?_, rfl, rfl, rfl⟩
  intro t
  cases t <;> rfl

/-- Auxiliary: once the once-guard has fired, any further iteration of
stop leaves the state unchanged and produces no effect. -/
theorem ctrlStopN_done (n : Nat) :
    ctrlStopN n { quitClosed := true, onceDone := true } =
      .ok ({ quitClosed := true, onceDone := true }, []) := by
  induction n with
  | zero => rfl
  | succ n ih => simp [ctrlStopN, ctrlStop, ih]

/-- C4: controller shutdown is idempotent — iterating stop any
positive number of times from a fresh controller equals a single stop:
no double-close panic, the quit channel closed exactly once and the
watcher set drained exactly once. -/
theorem stop_idempotent (n : Nat) (h : 1 ≤ n) :
    ctrlStopN n initCtrl = ctrlStopN 1 initCtrl ∧
    ctrlStopN 1 initCtrl =
      .ok ({ quitClosed := true, onceDone := true },
           [StopEffect.closeQuit, StopEffect.waitWatchers]) := by
  constructor
  · obtain ⟨m, rfl⟩ : ∃ m, n = m + 1 := ⟨n - 1, by omega⟩
    simp [ctrlStopN, ctrlStop, closeChan, initCtrl, ctrlStopN_done]
  · rfl

/-- C4 witness: three invocations of stop equal one. -/
theorem stop_idempotent_witness :
    1 ≤ 3 ∧ ctrlStopN 3 initCtrl = ctrlStopN 1 initCtrl :=
  ⟨by decide, (stop_idempotent 3 (by decide)).1⟩

/-- C5 counterexample: a stored MacaroonCustom session in state
Created with a future expiry reaches the credential switch, whose
default branch logs and returns nil — resumeSession returns no error
at all, rather than an UnsupportedType error. -/
theorem resumeSession_custom_counterexample :
    sessCustom.type = TypeMacaroonCustom ∧ sessCustom.state = StateCreated ∧
    (100 : Int) < sessCustom.expiry ∧
    resumeSession envOK 100 sessCustom = { effects := [], error := none } := by
  refine ⟨rfl, rfl, by decide, by decide⟩

/-- C5 (amended): for every session reaching credential construction
with a type other than UIPassword, MacaroonAdmin or MacaroonReadonly,
resumeSession skips it silently: no error is returned, no bake call,
no tunnel start, no watcher and no store write happen. -/
theorem resumeSession_unknown_type_skips (env : Env) (now : Int) (sess : Session)
    (hstate : sess.state = StateCreated ∨ sess.state = StateInUse)
    (hexp : ¬ sess.expiry < now)
    (h1 : sess.type ≠ TypeUIPassword) (h2 : sess.type ≠ TypeMacaroonAdmin)
    (h3 : sess.type ≠ TypeMacaroonReadonly) :
    resumeSession env now sess = { effects := [], error := none } := by
  have hs : ¬(sess.state ≠ StateInUse ∧ sess.state ≠ StateCreated) := by
    rcases hstate with h | h <;> simp [h]
  have hor : ¬(sess.type = TypeMacaroonAdmin ∨ sess.type = TypeMacaroonReadonly) := by
    tauto
  have hb : buildAuthData env sess = .skip := by
    unfold buildAuthData
    rw [if_neg h1, if_neg hor]
  have hbe : bakeEffects sess = [] := by
    unfold bakeEffects
    rw [if_neg hor]
  unfold resumeSession
  rw [if_neg hs, if_neg hexp, hb]
  simp [hbe]

/-- C5 witness: the MacaroonCustom session is skipped silently. -/
theorem resumeSession_unknown_type_skips_witness :
    (sessCustom.state = StateCreated ∨ sessCustom.state = StateInUse) ∧
    ¬ sessCustom.expiry < (100 : Int) ∧ sessCustom.type ≠ TypeUIPassword ∧
    resumeSession envOK 100 sessCustom = { effects := [], error := none } :=
  ⟨Or.inl rfl, by decide, by decide,
   resumeSession_unknown_type_skips envOK 100 sessCustom (Or.inl rfl)
     (by decide) (by decide) (by decide) (by decide)⟩

/-- C6 counterexample: an AddSession request whose expiry equals the
current instant is not rejected — `time.Now().After(expiry)` is
strict, so the session is constructed, persisted and resumed, and the
call succeeds. -/
theorem addSession_boundary_counterexample :
    ¬ (100 : Int) < int64OfUint64 reqAtNow.expiryTimestampSeconds ∧
    (addSession envOK 100 reqAtNow).error = none ∧
    Effect.storeSession 7 ∈ (addSession envOK 100 reqAtNow).effects := by
  refine ⟨by decide, by decide, by decide⟩

/-- C6 (amended): for every AddSession request whose expiry timestamp
is strictly before the current time, the call fails with the expiry
validation error and performs no effect at all — nothing is
constructed or persisted. -/
theorem addSession_past_expiry_rejected (env : Env) (now : Int) (req : AddSessionRequest)
    (h : int64OfUint64 req.expiryTimestampSeconds < now) :
    addSession env now req =
      { effects := [], error := some "expiry must be in the future" } := by
  simp [addSession, h]

/-- C6 witness: a request for expiry 50 evaluated at time 100 is
rejected with no effect. -/
theorem addSession_past_expiry_rejected_witness :
    int64OfUint64 reqPast.expiryTimestampSeconds < 100 ∧
    addSession envOK 100 reqPast =
      { effects := [], error := some "expiry must be in the future" } :=
  ⟨by decide, addSession_past_expiry_rejected envOK 100 reqPast (by decide)⟩

/-- C7: for every MacaroonAdmin or MacaroonReadonly session being
resumed, a failing bake call makes resumeSession return no error and
perform a soft skip: only the bake call itself happened — no tunnel
start, no watcher, no store write. -/
theorem resumeSession_bake_failure_soft_skip (env : Env) (now : Int) (sess : Session)
    (e : String)
    (hstate : sess.state = StateCreated ∨ sess.state = StateInUse)
    (hexp : ¬ sess.expiry < now)
    (htype : sess.type = TypeMacaroonAdmin ∨ sess.type = TypeMacaroonReadonly)
    (hbake : env.bakeResult = .error e) :
    (resumeSession env now sess).error = none ∧
    (resumeSession env now sess).effects
      = [Effect.bake sess.macaroonRootKey (sess.type == TypeMacaroonReadonly)] ∧
    (∀ k, Effect.tunnelStart k ∉ (resumeSession env now sess).effects) ∧
    (∀ k, Effect.spawnWatcher k ∉ (resumeSession env now sess).effects) ∧
    (∀ k, Effect.storeRevoke k ∉ (resumeSession env now sess).effects) ∧
    (∀ k, Effect.storeSession k ∉ (resumeSession env now sess).effects) := by
  have hs : ¬(sess.state ≠ StateInUse ∧ sess.state ≠ StateCreated) := by
    rcases hstate with h | h <;> simp [h]
  have hne : sess.type ≠ TypeUIPassword := by
    rcases htype with h | h <;> simp [h, TypeMacaroonAdmin, TypeMacaroonReadonly, TypeUIPassword]
  have hb : buildAuthData env sess = .skip := by
    unfold buildAuthData
    rw [if_neg hne, if_pos htype, hbake]
  have hbe : bakeEffects sess
      = [Effect.bake sess.macaroonRootKey (sess.type == TypeMacaroonReadonly)] := by
    unfold bakeEffects
    rw [if_pos htype]
  unfold resumeSession
  rw [if_neg hs, if_neg hexp, hb]
  simp [hbe]

/-- C7 witness: a MacaroonAdmin session with a failing baker is left
unstarted with no error. -/
theorem resumeSession_bake_failure_soft_skip_witness :
    (sessAdmin.state = StateCreated ∨ sessAdmin.state = StateInUse) ∧
    ¬ sessAdmin.expiry < (100 : Int) ∧
    envBakeFail.bakeResult = .error "bake failed" ∧
    (resumeSession envBakeFail 100 sessAdmin).error = none :=
  ⟨Or.inl rfl, by decide, rfl,
   (resumeSession_bake_failure_soft_skip envBakeFail 100 sessAdmin "bake failed"
     (Or.inl rfl) (by decide) (Or.inl rfl) rfl).1⟩

/-- C8: with a parseable key, RevokeSession revokes in the store
first; a store failure is returned with no stop attempt, and after a
successful store revoke the stop call is made and its failure (left
arbitrary in `env`) never surfaces. -/
theorem revokeSession_order (env : Env) (pubKey : Nat)
    (hparse : env.parseResult = .ok pubKey) :
    (∀ e, env.revokeErr = some e →
      revokeSessionHandler env =
        { effects := [Effect.storeRevoke pubKey],
          error := some ("error revoking session: " ++ e) }) ∧
    (env.revokeErr = none →
      revokeSessionHandler env =
        { effects := [Effect.storeRevoke pubKey, Effect.tunnelStop pubKey],
          error := none }) := by
  constructor
  · intro e he
    simp [revokeSessionHandler, hparse, he]
  · intro he
    simp [revokeSessionHandler, hparse, he]

/-- C8 witness: with a parseable key, a successful store revoke and a
failing stop call, the handler still succeeds after revoking then
stopping. -/
theorem revokeSession_order_witness :
    envStopFail.parseResult = .ok 7 ∧ envStopFail.revokeErr = none ∧
    revokeSessionHandler envStopFail =
      { effects := [Effect.storeRevoke 7, Effect.tunnelStop 7], error := none } :=
  ⟨rfl, rfl, (revokeSession_order envStopFail 7 rfl).2 rfl⟩

/-- C9: the wire translation of session types round-trips on the four
known types, and each direction fails with the unknown-value error on
every value outside its known set. -/
theorem rpcType_roundtrip :
    (∀ t, (t = TypeUIPassword ∨ t = TypeMacaroonAdmin ∨ t = TypeMacaroonReadonly ∨
        t = TypeMacaroonCustom) →
      (marshalRPCType t).bind unmarshalRPCType = .ok t) ∧
    (∀ t, t ≠ TypeUIPassword → t ≠ TypeMacaroonAdmin → t ≠ TypeMacaroonReadonly →
        t ≠ TypeMacaroonCustom →
      marshalRPCType t = .error ("unknown type <" ++ toString t ++ ">")) ∧
    (∀ w, w ≠ TYPE_UI_PASSWORD → w ≠ TYPE_MACAROON_ADMIN → w ≠ TYPE_MACAROON_READONLY →
        w ≠ TYPE_MACAROON_CUSTOM →
      unmarshalRPCType w = .error ("unknown type <" ++ toString w ++ ">")) := by
  refine ⟨?_, ?_, ?_⟩
  · rintro t (rfl | rfl | rfl | rfl) <;> rfl
  · intro t h1 h2 h3 h4
    unfold marshalRPCType
    rw [if_neg h3, if_neg h2, if_neg h4, if_neg h1]
  · intro w h1 h2 h3 h4
    unfold unmarshalRPCType
    rw [if_neg h3, if_neg h2, if_neg h4, if_neg h1]

/-- C9 witness: the round trip at MacaroonCustom and the failures of
both directions at the unknown value 9. -/
theorem rpcType_roundtrip_witness :
    (marshalRPCType TypeMacaroonCustom).bind unmarshalRPCType = .ok TypeMacaroonCustom ∧
    marshalRPCType 9 = .error ("unknown type <" ++ toString (9 : Nat) ++ ">") ∧
    unmarshalRPCType 9 = .error ("unknown type <" ++ toString (9 : Nat) ++ ">") :=
  ⟨rpcType_roundtrip.1 TypeMacaroonCustom (by decide),
   rpcType_roundtrip.2.1 9 (by decide) (by decide) (by decide) (by decide),
   rpcType_roundtrip.2.2 9 (by decide) (by decide) (by decide) (by decide)⟩

/-- C10: an AddSession request whose unsigned expiry seconds are at
least `2^63` denotes a future instant, yet the `int64` conversion
wraps it to a negative value, so the expiry-in-the-past check rejects
the request with no effect — nothing is created or persisted. -/
theorem addSession_wrap_rejected (env : Env) (now : Int) (req : AddSessionRequest)
    (hlo : 2 ^ 63 ≤ req.expiryTimestampSeconds)
    (hhi : req.expiryTimestampSeconds < 2 ^ 64)
    (hnow0 : 0 ≤ now) (hnow : now < 2 ^ 63) :
    now < (req.expiryTimestampSeconds : Int) ∧
    int64OfUint64 req.expiryTimestampSeconds < 0 ∧
    addSession env now req =
      { effects := [], error := some "expiry must be in the future" } := by
  have hwrap : int64OfUint64 req.expiryTimestampSeconds
      = (req.expiryTimestampSeconds : Int) - 2 ^ 64 := by
    unfold int64OfUint64
    rw [if_neg (by omega)]
  have hneg : int64OfUint64 req.expiryTimestampSeconds < 0 := by
    rw [hwrap]; omega
  have hlt : int64OfUint64 req.expiryTimestampSeconds < now := by omega
  refine ⟨by omega, hneg, ?_⟩
  simp [addSession, hlt]

/-- C10 witness: the request with expiry seconds `2^63` at time 1000
is rejected with no effect. -/
theorem addSession_wrap_rejected_witness :
    2 ^ 63 ≤ reqHuge.expiryTimestampSeconds ∧
    reqHuge.expiryTimestampSeconds < 2 ^ 64 ∧
    addSession envOK 1000 reqHuge =
      { effects := [], error := some "expiry must be in the future" } :=
  ⟨by decide, by decide,
   (addSession_wrap_rejected envOK 1000 reqHuge (by decide) (by decide)
     (by decide) (by decide)).2.2⟩

end LitSessions
